import Mathlib

/-!
Shallow embedding of `src/repmgrd.c` (replication manager daemon).

The embedding covers the parts of the daemon the specification's claims are
about: the LSN codec (`walLocationToBytes`), the monitoring tick
(`MonitorExecute`), the election engine (`do_failover`), the self-registration
check (`checkNodeConfiguration`), and the peer-set query it issues.

Machine integers are modelled as `Nat` with explicit `% 2^32` / `% 2^64`
where the C code's `unsigned int` / `unsigned long long` wrap matters.
C reads of uninitialized locals, of freed result handles, and of
out-of-range result rows are modelled as explicit error outcomes
(`UBSite`), since the C standard leaves them undefined.
-/

namespace Repmgrd

/-! ## LSN scanning: model of `sscanf(s, "%X/%X", &uxlogid, &uxrecoff)`

`repmgrd.c` parses LSN strings at three places (lines 495, 525, 656) with the
same `sscanf` format.  The model below covers inputs made of plain hex-digit
fields (no leading whitespace, no `0x` prefix, no sign, fields of value
< 2^32), which is the shape the database delivers; the stored conversion
results are truncated to `unsigned int`, i.e. taken `% 2^32`. -/

/-- Value of one hex digit, `none` when the character is not a hex digit
(codepoints 48-57 are `0`-`9`, 65-70 are `A`-`F`, 97-102 are `a`-`f`). -/
def hexDigitVal (c : Char) : Option Nat :=
  let n := c.toNat
  if 48 ≤ n ∧ n ≤ 57 then some (n - 48)
  else if 65 ≤ n ∧ n ≤ 70 then some (n - 55)
  else if 97 ≤ n ∧ n ≤ 102 then some (n - 87)
  else none

/-- Greedy run of hex digits: accumulated value, number of digits consumed,
and the remaining input (first non-digit onward). -/
def hexRun : List Char → Nat → Nat → Nat × Nat × List Char
  | [], acc, n => (acc, n, [])
  | c :: cs, acc, n =>
    match hexDigitVal c with
    | some d => hexRun cs (acc * 16 + d) (n + 1)
    | none => (acc, n, c :: cs)

/-- Result of `sscanf("%X/%X")`: how many conversions succeeded, and the
values assigned.  `one` records that only the first variable was written
(the second keeps whatever it held before the call). -/
inductive ScanLSN
  | two (seg off : Nat)
  | one (seg : Nat)
  | zero
  deriving DecidableEq, Repr

/-- `sscanf(cs, "%X/%X", ...)` on a character list. -/
def scanLSN (cs : List Char) : ScanLSN :=
  let r1 := hexRun cs 0 0
  if r1.2.1 = 0 then .zero
  else
    match r1.2.2 with
    | '/' :: rest =>
      let r2 := hexRun rest 0 0
      if r2.2.1 = 0 then .one (r1.1 % 4294967296)
      else .two (r1.1 % 4294967296) (r2.1 % 4294967296)
    | _ => .one (r1.1 % 4294967296)

/-- `walLocationToBytes` (repmgrd.c:650-662): parse `"%X/%X"`; on failure log
and return 0; on success return `xlogid * 16*1024*1024*255 + xrecoff` as an
`unsigned long long` (the signed-intermediate overflow of the C expression is
modelled as the conventional two's-complement wrap, i.e. `% 2^64`). -/
def walLocationToBytes (wal_location : String) : Nat :=
  match scanLSN wal_location.data with
  | .two xlogid xrecoff => (xlogid * 4278190080 + xrecoff) % 18446744073709551616
  | _ => 0

/-- One step of hex-value accumulation. -/
def hexStep (a : Nat) (c : Char) : Nat :=
  a * 16 + (hexDigitVal c).getD 0

/-- Fold of a hex-digit list into its value (used to state well-formedness). -/
def hexListVal (ds : List Char) : Nat :=
  ds.foldl hexStep 0

/-- All characters of the list are hex digits. -/
def allHex (ds : List Char) : Bool :=
  ds.all (fun c => (hexDigitVal c).isSome)

/-! ## Globals used by the election (repmgrd.c:49, 54)

`myClusterName` is a global `char` array that is declared but never written
anywhere in the file, so it holds its zero-initialized value, the empty
string.  `myLocalId` is declared with initializer `-1` and is likewise never
assigned.  `do_failover` builds its peer query and its dispatch test from
these two globals (lines 458-460, 528, 550), not from `local_options`. -/

/-- `int myLocalId = -1;` — never assigned in repmgrd.c. -/
def myLocalId : Int := -1

/-- `char myClusterName[MAXLEN];` — a zeroed global, never written. -/
def myClusterName : String := ""

/-! ## The election engine: `do_failover` (repmgrd.c:402-557) -/

/-- A row of `repl_nodes`: `(id, cluster, conninfo)`. -/
structure NodeRow where
  id : Int
  cluster : String
  conninfo : String
  deriving DecidableEq, Repr

/-- Semantics of the peer query at repmgrd.c:456-460:
`SELECT * FROM repl_nodes WHERE id IN
  (SELECT standby_node FROM repl_status WHERE standby_node <> excludeId)
 AND cluster = 'cl'`. -/
def peerStandbyQuery (nodes : List NodeRow) (statusStandbys : List Int)
    (excludeId : Int) (cl : String) : List NodeRow :=
  nodes.filter (fun r =>
    statusStandbys.any (fun s => s != excludeId && s == r.id) && r.cluster == cl)

/-- The peer rows `do_failover` actually obtains: the query above instantiated
with the never-assigned globals `myLocalId = -1` and `myClusterName = ""`. -/
def do_failover_peer_rows (nodes : List NodeRow) (statusStandbys : List Int) :
    List NodeRow :=
  peerStandbyQuery nodes statusStandbys myLocalId myClusterName

/-- One listed peer as the probing loop sees it: its `repl_nodes` id, whether
`establishDBConnection` succeeds, and — when the probe query
`SELECT repmgr_get_last_standby_location()` succeeds — the text of its
single result row (row 0).  `probeRes = none` covers both connection failure
and query failure (both `continue`). -/
structure PeerInput where
  id : Int
  connOk : Bool
  probeRes : Option String
  deriving DecidableEq, Repr

/-- A peer counts as visible when its connection and its probe query both
succeed (repmgrd.c:480-493). -/
def peerVisible (p : PeerInput) : Bool :=
  p.connOk && p.probeRes.isSome

/-- One entry of the stack array `nodeInfo nodes[50]`.  A field is `none`
when the corresponding C struct member holds no determinate value: either it
was never written, or it was copied from a local that was itself still
indeterminate. -/
structure Cell where
  is_ready : Option Bool
  nodeId : Option Int
  seg : Option Nat
  off : Option Nat
  deriving DecidableEq, Repr

/-- The locals `unsigned int uxlogid, uxrecoff` (repmgrd.c:419-420), declared
without initializer; `none` = still indeterminate. -/
structure ScanState where
  seg : Option Nat
  off : Option Nat
  deriving DecidableEq, Repr

/-- Effect of `sscanf(.., "%X/%X", &uxlogid, &uxrecoff)` on the two locals:
a partial match writes only the variables it converted. -/
def applyScan (st : ScanState) : ScanLSN → ScanState
  | .two a b => ⟨some a, some b⟩
  | .one a => ⟨some a, st.off⟩
  | .zero => st

/-- Sites at which `do_failover` performs a read with no defined C
semantics: the NULL dereference of an out-of-range result row, the
use-after-free read of the cleared `res2` handle at line 525, and — in the
selection-phase embedding claim C10 prescribes — the read of a candidate
entry the probing phase never initialized. -/
inductive UBSite
  | probeRowOutOfRange (i : Nat)
  | seedRes2Read
  | uninitCellRead (i : Nat)
  deriving DecidableEq, Repr

/-- The probing loop (repmgrd.c:472-505).  `i` is the loop index, `st` the
`uxlogid`/`uxrecoff` pair, `visible` the `visible_nodes` counter.

Per iteration: `nodes[i].is_ready = false`; skip the peer unless connection
and query succeed; otherwise `visible_nodes++`, then
`sscanf(PQgetvalue(res2, i, 0), "%X/%X", ...)` — the probe result has exactly
one row, so for `i ≥ 1` `PQgetvalue` returns NULL and the `sscanf` call
dereferences it (`probeRowOutOfRange`); for `i = 0` a failed or partial parse
is only logged (line 496), and the loop stores the locals as they stand —
indeterminate components and all — into `nodes[i]` and marks it
`is_ready = true`, exactly as lines 498-501 do. -/
def probeLoop : List PeerInput → Nat → ScanState → List Cell → Nat →
    Except UBSite (List Cell × Nat × ScanState)
  | [], _, st, cells, visible => .ok (cells, visible, st)
  | p :: rest, i, st, cells, visible =>
    if peerVisible p then
      if i ≠ 0 then .error (.probeRowOutOfRange i)
      else
        let st' := applyScan st (scanLSN (p.probeRes.getD "").data)
        probeLoop rest (i + 1) st'
          (cells ++ [⟨some true, some p.id, st'.seg, st'.off⟩]) (visible + 1)
    else
      probeLoop rest (i + 1) st (cells ++ [⟨some false, none, none, none⟩]) visible

/-- `nodeInfo best_candidate` contents (nodeId, xlogid, xrecoff). -/
structure Candidate where
  nodeId : Int
  seg : Nat
  off : Nat
  deriving DecidableEq, Repr

/-- The macro `XLByteLT(a, b)` from `access/xlogdefs.h`: lexicographic
strict order on (xlogid, xrecoff). -/
def XLByteLT (a b : Nat × Nat) : Bool :=
  a.1 < b.1 || (a.1 == b.1 && a.2 < b.2)

/-- Read of `nodes[i]`: entries past the cells the probing loop wrote are
fully uninitialized stack memory. -/
def cellAt (cells : List Cell) (i : Nat) : Cell :=
  cells.getD i ⟨none, none, none, none⟩

/-- One iteration of the selection loop body (repmgrd.c:536-546): skip the
entry unless `is_ready`; replace the best candidate when its location is
`XLByteLT` the entry's.  Reading an uninitialized field is an error. -/
def selStep (cells : List Cell) (best : Candidate) (i : Nat) :
    Except UBSite Candidate :=
  match (cellAt cells i).is_ready with
  | none => .error (.uninitCellRead i)
  | some false => .ok best
  | some true =>
    match (cellAt cells i).nodeId, (cellAt cells i).seg, (cellAt cells i).off with
    | some nid, some s, some o =>
      if XLByteLT (best.seg, best.off) (s, o) then .ok ⟨nid, s, o⟩ else .ok best
    | _, _, _ => .error (.uninitCellRead i)

/-- The selection loop `for (i = 0; i <= numelm; i++)` (repmgrd.c:534-547):
note the `≤`, so indices `0, 1, ..., numelm` are all read. -/
def selectBest (cells : List Cell) (numelm : Nat) (seed : Candidate) :
    Except UBSite Candidate :=
  (List.range (numelm + 1)).foldlM (selStep cells) seed

/-- How a run of `do_failover` ends.  `promote`/`follow` model the
`system(promote_command)` / `system(follow_command)` dispatch; `ub` records
that the run reached a read with no defined C semantics. -/
inductive Outcome
  | exitDbQuery
  | exitBadQuery
  | exitFailoverFail
  | ub (s : UBSite)
  | promote
  | follow (id : Int)
  deriving DecidableEq, Repr

/-- Inputs of one `do_failover` run: the local replay-location query result
(`none` = `PGRES_TUPLES_OK` failure), whether the peer-list query succeeds,
and the listed peers in result order. -/
structure FailoverInput where
  localApply : Option String
  nodesQueryOk : Bool
  peers : List PeerInput
  deriving DecidableEq, Repr

/-- What a run produced: the LSN text published through
`pg_update_standby_location`, and the run's end. -/
structure FailoverRun where
  published : Option String
  outcome : Outcome
  deriving DecidableEq, Repr

/-- `do_failover` (repmgrd.c:402-557).

* local replay query fails → publish `'0/0'` and exit `ERR_DB_QUERY`
  (lines 435-444);
* publish the fresh local LSN, list peers (failure → `ERR_BAD_QUERY`),
  run the probing loop (lines 449-505);
* `total_nodes = 1 + ntuples`, and if `visible_nodes < total_nodes / 2`
  exit `ERR_FAILOVER_FAIL` (lines 410-411, 509-522);
* otherwise line 525 seeds `best_candidate` from
  `sscanf(PQgetvalue(res2, numelm, 0), ...)` — `res2` was already cleared
  inside the loop (or never assigned when no peer connected) and row
  `numelm` is out of range, so every run that passes the quorum gate
  reaches this undefined read and the model stops there
  (`ub seedRes2Read`). -/
def do_failover (inp : FailoverInput) : FailoverRun :=
  match inp.localApply with
  | none => ⟨some "0/0", .exitDbQuery⟩
  | some lastApplied =>
    if !inp.nodesQueryOk then ⟨some lastApplied, .exitBadQuery⟩
    else
      match probeLoop inp.peers 0 ⟨none, none⟩ [] 1 with
      | .error s => ⟨some lastApplied, .ub s⟩
      | .ok (_cells, visible, _st) =>
        let total_nodes := 1 + inp.peers.length
        if visible < total_nodes / 2 then ⟨some lastApplied, .exitFailoverFail⟩
        else ⟨some lastApplied, .ub .seedRes2Read⟩

/-- The dispatch of repmgrd.c:549-553, for reference: it compares the winner
against the never-assigned `myLocalId`.  Unreachable in `do_failover`
because the seeding read precedes it. -/
def dispatch (best : Candidate) : Outcome :=
  if best.nodeId == myLocalId then .promote else .follow best.nodeId

/-- Number of visible peers among the listed ones. -/
def visCount (ps : List PeerInput) : Nat :=
  ps.countP peerVisible

/-- The probing loop completes without an undefined read exactly when no
peer at index ≥ 1 is visible (the only undefined read inside the loop is the
NULL dereference of the out-of-range result row for a visible peer at
index ≥ 1; whether peer 0's LSN parses does not matter — a failed parse is
logged and the loop continues). -/
def cleanPeers : List PeerInput → Bool
  | [] => true
  | _ :: rest => rest.all (fun q => !peerVisible q)

/-! ## The monitoring tick: `MonitorExecute` (repmgrd.c:246-399) -/

/-- `unsigned long long` subtraction: both operands < 2^64, result wraps. -/
def u64sub (a b : Nat) : Nat :=
  (a + 18446744073709551616 - b) % 18446744073709551616

/-- Reinterpretation of an `unsigned long long` value through the `%lld`
format used in the INSERT at repmgrd.c:381-390 (two's complement). -/
def toS64 (v : Nat) : Int :=
  if v < 9223372036854775808 then (v : Int) else (v : Int) - 18446744073709551616

/-- The row the asynchronous INSERT (repmgrd.c:381-390) writes into
`repl_monitor`, in column order. -/
structure MonitorRecord where
  primaryNode : Int
  standbyNode : Int
  timestamp : String
  primaryLsnText : String
  receivedLsnText : String
  bytes_behind_receive : Int
  bytes_behind_apply : Int
  deriving DecidableEq, Repr

/-- Inputs of the sampling part of one tick: whether `is_standby` still
holds, the local query result `(CURRENT_TIMESTAMP,
pg_last_xlog_receive_location(), pg_last_xlog_replay_location())`, and the
primary's `pg_current_xlog_location()` (`none` = query failure). -/
structure TickInput where
  still_standby : Bool
  localSample : Option (String × String × String)
  primarySample : Option String
  deriving DecidableEq, Repr

/-- How the sampling part of a tick ends. -/
inductive TickResult
  | promotedExit
  | skip
  | send (rec : MonitorRecord)
  deriving DecidableEq, Repr

/-- The sampling core of `MonitorExecute` (repmgrd.c:323-398): exit when no
longer a standby; a failed query skips the tick; otherwise compute the two
lags as `unsigned long long` differences and send the record.  The record is
sent unconditionally — no clamping, no sign check. -/
def MonitorExecute (primaryNode standbyNode : Int) (inp : TickInput) :
    TickResult :=
  if !inp.still_standby then .promotedExit
  else
    match inp.localSample with
    | none => .skip
    | some (ts, recv, appl) =>
      match inp.primarySample with
      | none => .skip
      | some prim =>
        let lsn_primary := walLocationToBytes prim
        let lsn_standby_received := walLocationToBytes recv
        let lsn_standby_applied := walLocationToBytes appl
        .send
          { primaryNode := primaryNode
            standbyNode := standbyNode
            timestamp := ts
            primaryLsnText := prim
            receivedLsnText := recv
            bytes_behind_receive := toS64 (u64sub lsn_primary lsn_standby_received)
            bytes_behind_apply := toS64 (u64sub lsn_standby_received lsn_standby_applied) }

/-! ## Insert pipeline (claim C8)

State: the number of asynchronous monitor INSERTs in flight against the
primary.  Per tick, in program order (repmgrd.c):
the previous insert may have completed on its own; line 336-337 cancels it
if `PQisBusy`; line 362 runs a synchronous `PQexec` on the primary
connection, which drains any remaining asynchronous state; line 396 sends
the new insert with `PQsendQuery`.  A failed local or primary sample query
returns from the tick before the send. -/

/-- Environment of one tick, for the pipeline model. -/
structure PipeTickInput where
  insertCompleted : Bool
  localOk : Bool
  primaryOk : Bool
  sendOk : Bool
  deriving DecidableEq, Repr

/-- Outstanding-insert counts after each primitive step of one tick, given
the count `s` at tick entry.  `PQisBusy` is true exactly when an insert is
still in flight, so the cancel step zeroes the count whenever it is
nonzero. -/
def pipeTick (s : Nat) (inp : PipeTickInput) : List Nat :=
  let s1 := if inp.insertCompleted then 0 else s
  let s2 := if s1 ≠ 0 then 0 else s1
  if !inp.localOk then [s1, s2]
  else if !inp.primaryOk then [s1, s2, 0]
  else [s1, s2, 0, if inp.sendOk then 1 else 0]

/-- Count at the end of a tick. -/
def pipeEnd (s : Nat) (inp : PipeTickInput) : Nat :=
  (pipeTick s inp).getLastD s

/-- Count at the start of tick `n`, for a given tick-input stream; the loop
starts with nothing in flight. -/
def pipeRun (inputs : Nat → PipeTickInput) : Nat → Nat
  | 0 => 0
  | n + 1 => pipeEnd (pipeRun inputs n) (inputs n)

/-- All intermediate counts over the first `n` ticks. -/
def pipeTrace (inputs : Nat → PipeTickInput) : Nat → List Nat
  | 0 => [0]
  | n + 1 => pipeTrace inputs n ++ pipeTick (pipeRun inputs n) (inputs n)

/-! ## Self-registration: `checkNodeConfiguration` (repmgrd.c:597-647) -/

/-- The WHERE clause `id = n AND cluster = 'cl'` of both the SELECT and the
implicit uniqueness notion of the claim. -/
def nodeRowMatches (n : Int) (cl : String) (r : NodeRow) : Bool :=
  r.id == n && r.cluster == cl

/-- `checkNodeConfiguration`: count the rows for `(n, cl)`; when there are
none, INSERT `(n, cl, conninfo)`.  Returns the new table and whether an
insert was performed. -/
def checkNodeConfiguration (table : List NodeRow) (n : Int)
    (cl conninfo : String) : List NodeRow × Bool :=
  if (table.filter (nodeRowMatches n cl)).length = 0 then
    (table ++ [⟨n, cl, conninfo⟩], true)
  else
    (table, false)

/-! Theorems from here on; all definitions are above. -/

/-! ## Lemmas about the LSN scanner -/

/-- A run of hex digits is consumed wholesale by `hexRun`, accumulating
`hexStep` over the digits. -/
theorem hexRun_append (ds rest : List Char) (h : allHex ds = true) :
    ∀ acc n, hexRun (ds ++ rest) acc n =
      hexRun rest (ds.foldl hexStep acc) (n + ds.length) := by
  induction ds with
  | nil => intro acc n; simp [List.foldl]
  | cons c ds ih =>
    intro acc n
    have hc : (hexDigitVal c).isSome = true := by
      simp [allHex, List.all_cons] at h
      exact h.1
    have hds : allHex ds = true := by
      simp [allHex, List.all_cons] at h ⊢
      intro x hx
      exact h.2 x hx
    obtain ⟨d, hd⟩ := Option.isSome_iff_exists.mp hc
    have step : hexRun (c :: ds ++ rest) acc n = hexRun (ds ++ rest) (acc * 16 + d) (n + 1) := by
      simp [hexRun, hd]
    rw [List.cons_append] at step ⊢
    rw [step, ih hds]
    have hfold : (c :: ds).foldl hexStep acc = ds.foldl hexStep (acc * 16 + d) := by
      simp [List.foldl_cons, hexStep, hd]
    rw [hfold]
    have : n + 1 + ds.length = n + (c :: ds).length := by
      simp [List.length_cons]; omega
    rw [this]

/-- `hexRun` stops at a non-hex character. -/
theorem hexRun_nonhex (c : Char) (rest : List Char) (h : hexDigitVal c = none)
    (acc n : Nat) : hexRun (c :: rest) acc n = (acc, n, c :: rest) := by
  simp [hexRun, h]

/-- C3, confirmed: for every well-formed LSN string `"H/H"` — a nonempty
hex-digit field `ds1`, a slash, a nonempty hex-digit field `ds2`, each field
of value < 2^32 — `walLocationToBytes` returns exactly
`segment * 0xFF000000 + offset` (`0xFF000000 = 16*1024*1024*255 =
4278190080`, i.e. 255 × 16 MiB per segment id). -/
theorem walLocationToBytes_wellformed (ds1 ds2 : List Char)
    (h1 : allHex ds1 = true) (h2 : allHex ds2 = true)
    (n1 : ds1 ≠ []) (n2 : ds2 ≠ [])
    (b1 : hexListVal ds1 < 4294967296) (b2 : hexListVal ds2 < 4294967296) :
    walLocationToBytes (String.mk (ds1 ++ '/' :: ds2)) =
      hexListVal ds1 * 4278190080 + hexListVal ds2 := by
  have hslash : hexDigitVal '/' = none := by decide
  have e1 : hexRun (ds1 ++ '/' :: ds2) 0 0 = (hexListVal ds1, ds1.length, '/' :: ds2) := by
    rw [hexRun_append ds1 ('/' :: ds2) h1 0 0, hexRun_nonhex _ _ hslash]
    simp [hexListVal]
  have e2 : hexRun ds2 0 0 = (hexListVal ds2, ds2.length, []) := by
    have hnil : ds2 ++ ([] : List Char) = ds2 := by simp
    rw [← hnil, hexRun_append ds2 [] h2 0 0]
    simp [hexRun, hexListVal]
  have l1 : ds1.length ≠ 0 := by simpa using n1
  have l2 : ds2.length ≠ 0 := by simpa using n2
  have hscan : scanLSN (ds1 ++ '/' :: ds2) =
      .two (hexListVal ds1 % 4294967296) (hexListVal ds2 % 4294967296) := by
    simp only [scanLSN, e1, e2]
    simp [l1, l2]
  unfold walLocationToBytes
  rw [show (String.mk (ds1 ++ '/' :: ds2)).data = ds1 ++ '/' :: ds2 from rfl]
  rw [hscan]
  rw [Nat.mod_eq_of_lt b1, Nat.mod_eq_of_lt b2]
  have : hexListVal ds1 * 4278190080 + hexListVal ds2 < 18446744073709551616 := by
    have := b1; have := b2; omega
  exact Nat.mod_eq_of_lt this

/-- C3 witness: `"1/A0B0C0D0"` parses to segment 1, offset 0xA0B0C0D0, and
converts to `1 * 4278190080 + 0xA0B0C0D0`. -/
theorem walLocationToBytes_wellformed_witness :
    allHex ['1'] = true ∧
    allHex ['A', '0', 'B', '0', 'C', '0', 'D', '0'] = true ∧
    ['1'] ≠ ([] : List Char) ∧
    ['A', '0', 'B', '0', 'C', '0', 'D', '0'] ≠ ([] : List Char) ∧
    hexListVal ['1'] < 4294967296 ∧
    hexListVal ['A', '0', 'B', '0', 'C', '0', 'D', '0'] < 4294967296 ∧
    walLocationToBytes (String.mk (['1'] ++ '/' :: ['A', '0', 'B', '0', 'C', '0', 'D', '0'])) =
      hexListVal ['1'] * 4278190080 + hexListVal ['A', '0', 'B', '0', 'C', '0', 'D', '0'] :=
  ⟨by decide, by decide, by decide, by decide, by decide, by decide,
    walLocationToBytes_wellformed ['1'] ['A', '0', 'B', '0', 'C', '0', 'D', '0']
      (by decide) (by decide) (by decide) (by decide) (by decide) (by decide)⟩

/-! ## Lemmas about the probing loop -/

/-- A stretch of peers none of which is visible only appends
`is_ready = false` cells: no undefined read, no visibility increment. -/
theorem probeLoop_invisible (ps : List PeerInput) (h : ∀ q ∈ ps, peerVisible q = false) :
    ∀ i st cells v, probeLoop ps i st cells v =
      .ok (cells ++ ps.map (fun _ => ⟨some false, none, none, none⟩), v, st) := by
  induction ps with
  | nil => intro i st cells v; simp [probeLoop]
  | cons p rest ih =>
    intro i st cells v
    have hp : peerVisible p = false := h p (by simp)
    have hrest : ∀ q ∈ rest, peerVisible q = false := fun q hq => h q (by simp [hq])
    simp only [probeLoop, hp]
    rw [if_neg (by simp)]
    rw [ih hrest]
    simp

/-- No visible peer, no visible count. -/
theorem visCount_zero (ps : List PeerInput) (h : ∀ q ∈ ps, peerVisible q = false) :
    visCount ps = 0 := by
  simp [visCount, List.countP_eq_zero]
  intro q hq
  simp [h q hq]

/-- On a clean peer list the probing loop completes, and the final
`visible_nodes` counter is `1 + (number of peers whose connection and probe
query both succeed)`. -/
theorem probeLoop_clean (ps : List PeerInput) (h : cleanPeers ps = true) :
    ∃ cells st, probeLoop ps 0 ⟨none, none⟩ [] 1 = .ok (cells, 1 + visCount ps, st) := by
  cases ps with
  | nil => exact ⟨[], ⟨none, none⟩, by simp [probeLoop, visCount]⟩
  | cons p rest =>
    simp only [cleanPeers, List.all_eq_true] at h
    have hrest : ∀ q ∈ rest, peerVisible q = false := by
      intro q hq
      simpa using h q hq
    have hvc0 : visCount rest = 0 := visCount_zero rest hrest
    by_cases hp : peerVisible p = true
    · have hvc : visCount (p :: rest) = 1 := by
        unfold visCount at hvc0 ⊢
        rw [List.countP_cons]
        simp [hp, hvc0]
      refine ⟨⟨some true, some p.id,
          (applyScan ⟨none, none⟩ (scanLSN (p.probeRes.getD "").data)).seg,
          (applyScan ⟨none, none⟩ (scanLSN (p.probeRes.getD "").data)).off⟩ ::
        rest.map (fun _ => ⟨some false, none, none, none⟩),
        applyScan ⟨none, none⟩ (scanLSN (p.probeRes.getD "").data), ?_⟩
      have hstep : probeLoop (p :: rest) 0 ⟨none, none⟩ [] 1 =
          probeLoop rest 1 (applyScan ⟨none, none⟩ (scanLSN (p.probeRes.getD "").data))
            [⟨some true, some p.id,
              (applyScan ⟨none, none⟩ (scanLSN (p.probeRes.getD "").data)).seg,
              (applyScan ⟨none, none⟩ (scanLSN (p.probeRes.getD "").data)).off⟩] 2 := by
        simp [probeLoop, hp]
      rw [hstep, probeLoop_invisible rest hrest, hvc]
      simp
    · have hp' : peerVisible p = false := by
        cases hb : peerVisible p
        · rfl
        · exact absurd hb hp
      have hvc : visCount (p :: rest) = 0 := by
        unfold visCount at hvc0 ⊢
        rw [List.countP_cons]
        simp [hp', hvc0]
      refine ⟨(p :: rest).map (fun _ => ⟨some false, none, none, none⟩), ⟨none, none⟩, ?_⟩
      rw [probeLoop_invisible (p :: rest) (by
        intro q hq
        rcases List.mem_cons.mp hq with h1 | h2
        · rw [h1]; exact hp'
        · exact hrest q h2), hvc]
      simp

/-! ## Claims about the election engine -/

/-- C1 counterexample: the claim "in every election, if
`visible_nodes < total_nodes / 2` the engine exits with the failover-fail
status" is false as stated.  Five listed peers of which only the peer at
index 1 is reachable: `visible_nodes = 2 < 3 = total_nodes / 2` is a
minority partition, yet the run does not exit `ERR_FAILOVER_FAIL` — the
probing loop first executes `sscanf(PQgetvalue(res2, 1, 0), ...)` on a
one-row result, dereferencing the NULL that `PQgetvalue` returns for the
out-of-range row 1. -/
theorem quorum_gate_claim_counterexample :
    (1 + visCount [⟨3, false, none⟩, ⟨4, true, some "1/0"⟩, ⟨5, false, none⟩,
        ⟨6, false, none⟩, ⟨7, false, none⟩] <
      (1 + 5) / 2) ∧
    do_failover ⟨some "1/0", true, [⟨3, false, none⟩, ⟨4, true, some "1/0"⟩,
        ⟨5, false, none⟩, ⟨6, false, none⟩, ⟨7, false, none⟩]⟩ =
      ⟨some "1/0", .ub (.probeRowOutOfRange 1)⟩ ∧
    (do_failover ⟨some "1/0", true, [⟨3, false, none⟩, ⟨4, true, some "1/0"⟩,
        ⟨5, false, none⟩, ⟨6, false, none⟩, ⟨7, false, none⟩]⟩).outcome ≠
      .exitFailoverFail := by
  refine ⟨by decide, by decide, by decide⟩

/-- C1, amended: in every election whose probing loop completes without an
undefined read (`cleanPeers`: every peer at index ≥ 1 is unreachable or its
probe query fails — peer 0 may be visible with any LSN text, parseable or
not, since a failed parse at line 495 is only logged and the loop
continues), the engine computes `total_nodes = 1 + P` counting every listed
peer regardless of reachability and `visible_nodes = 1 +` (number of peers
whose connection and position query both succeed), and if
`visible_nodes < total_nodes / 2` under integer division it exits with
`ERR_FAILOVER_FAIL` and dispatches neither the promote nor the follow
command. -/
theorem quorum_gate_amended (inp : FailoverInput) (s : String)
    (hl : inp.localApply = some s)
    (hq : inp.nodesQueryOk = true)
    (hc : cleanPeers inp.peers = true)
    (hm : 1 + visCount inp.peers < (1 + inp.peers.length) / 2) :
    do_failover inp = ⟨some s, .exitFailoverFail⟩ ∧
    (do_failover inp).outcome ≠ .promote ∧
    ∀ j, (do_failover inp).outcome ≠ .follow j := by
  obtain ⟨cells, st, hp⟩ := probeLoop_clean inp.peers hc
  have hmain : do_failover inp = ⟨some s, .exitFailoverFail⟩ := by
    unfold do_failover
    rw [hl]
    simp only [hq, Bool.not_true, Bool.false_eq_true, if_false, hp]
    rw [if_pos hm]
  refine ⟨hmain, ?_, ?_⟩
  · rw [hmain]; simp
  · intro j; rw [hmain]; simp

/-- C1 witness: six listed peers, of which only peer 0 is reachable and its
reported LSN `"zz"` does not even parse: `visible_nodes = 2`,
`total_nodes = 7`, `2 < 3`, and the run exits `ERR_FAILOVER_FAIL` — the
failed parse is logged, the indeterminate locals land unread in `nodes[0]`,
and the gate still fires. -/
theorem quorum_gate_amended_witness :
    cleanPeers [⟨3, true, some "zz"⟩, ⟨4, false, none⟩, ⟨5, false, none⟩,
      ⟨6, false, none⟩, ⟨7, false, none⟩, ⟨8, false, none⟩] = true ∧
    do_failover ⟨some "1/0", true, [⟨3, true, some "zz"⟩, ⟨4, false, none⟩,
        ⟨5, false, none⟩, ⟨6, false, none⟩, ⟨7, false, none⟩, ⟨8, false, none⟩]⟩ =
      ⟨some "1/0", .exitFailoverFail⟩ :=
  ⟨by decide,
    (quorum_gate_amended
      ⟨some "1/0", true, [⟨3, true, some "zz"⟩, ⟨4, false, none⟩, ⟨5, false, none⟩,
        ⟨6, false, none⟩, ⟨7, false, none⟩, ⟨8, false, none⟩]⟩
      "1/0" rfl rfl (by decide) (by decide)).1⟩

/-- C2, code bug: the claim says the best candidate is seeded from the local
node's own freshly read applied LSN.  The code (repmgrd.c:525) instead seeds
it from `sscanf(PQgetvalue(res2, i, 0), ...)` where `res2` is the per-peer
result handle that was already `PQclear`ed inside the probing loop (or never
assigned when no peer connected) and `i = numelm` is one past its only row:
a use-after-free / out-of-range read with no defined result.  Here: local
applied LSN is `"9/0"`, one reachable peer at `"5/0"`, quorum passes
(2 ≥ 2/2), and the run reaches the undefined seeding read instead of
selecting a candidate. -/
theorem best_candidate_seed_undefined :
    do_failover ⟨some "9/0", true, [⟨5, true, some "5/0"⟩]⟩ =
      ⟨some "9/0", .ub .seedRes2Read⟩ := by decide

/-- C5, code bug: `walLocationToBytes` does return the sentinel 0 for a
malformed string (first conjunct), but in the election the claim fails: a
peer whose reported LSN does not parse is not treated as `0/0`.  The code
(repmgrd.c:495-501) only logs the parse failure and then copies the still
indeterminate locals `uxlogid`/`uxrecoff` into the candidate entry and marks
it `is_ready = true`.  With one reachable peer reporting `"zz"`, the probing
loop produces a ready candidate whose location fields are indeterminate
(`none`), not the `0/0` the claim requires (third conjunct), and the run
then aborts at line 525's use-after-free seeding read before any defined
comparison could see a `0/0` for that site. -/
theorem malformed_peer_lsn_bug :
    walLocationToBytes "zz" = 0 ∧
    probeLoop [⟨5, true, some "zz"⟩] 0 ⟨none, none⟩ [] 1 =
      .ok ([⟨some true, some 5, none, none⟩], 2, ⟨none, none⟩) ∧
    (⟨some true, some 5, none, none⟩ : Cell) ≠ ⟨some true, some 5, some 0, some 0⟩ ∧
    do_failover ⟨some "7/0", true, [⟨5, true, some "zz"⟩]⟩ =
      ⟨some "7/0", .ub .seedRes2Read⟩ := by
  refine ⟨by decide, rfl, by decide, by decide⟩

/-- C6, code bug: the peer set is claimed to be the registered standbys of
the configured cluster excluding the local node id.  The query
(repmgrd.c:456-460) is instead built from the globals `myLocalId` and
`myClusterName`, which are never assigned anywhere in the file: it excludes
node `-1` (not the local node) and scopes to cluster `""` (not the
configured cluster).  With configured node 2 and cluster `"test"`, two
registered standbys of `"test"`: the code's query returns `[]` where the
claimed set is node 3; and a node row with cluster `""` equal to the local
node is not excluded. -/
theorem peer_query_unset_globals :
    do_failover_peer_rows [⟨2, "test", "c2"⟩, ⟨3, "test", "c3"⟩] [2, 3] = [] ∧
    peerStandbyQuery [⟨2, "test", "c2"⟩, ⟨3, "test", "c3"⟩] [2, 3] 2 "test" =
      [⟨3, "test", "c3"⟩] ∧
    do_failover_peer_rows [⟨2, "", "c2"⟩] [2] = [⟨2, "", "c2"⟩] ∧
    myLocalId = -1 ∧ myClusterName = "" := by
  refine ⟨by decide, by decide, by decide, by decide, by decide⟩

/-- C7, confirmed: when the engine fails to read the local node's applied
position (`localApply = none`), it publishes the sentinel `'0/0'` via
`pg_update_standby_location` (repmgrd.c:439-442) and exits with
`ERR_DB_QUERY` without ever dispatching the promote command — so the local
node cannot win the election, and peers' elections see the `0/0` sentinel
for it. -/
theorem publish_sentinel_on_local_failure (inp : FailoverInput)
    (h : inp.localApply = none) :
    do_failover inp = ⟨some "0/0", .exitDbQuery⟩ ∧
    (do_failover inp).outcome ≠ .promote := by
  have hmain : do_failover inp = ⟨some "0/0", .exitDbQuery⟩ := by
    unfold do_failover
    rw [h]
  exact ⟨hmain, by rw [hmain]; simp⟩

/-- C7 witness: a concrete run whose local replay query fails. -/
theorem publish_sentinel_on_local_failure_witness :
    do_failover ⟨none, true, [⟨5, true, some "5/0"⟩]⟩ =
      ⟨some "0/0", .exitDbQuery⟩ ∧
    (do_failover ⟨none, true, [⟨5, true, some "5/0"⟩]⟩).outcome ≠ .promote :=
  publish_sentinel_on_local_failure ⟨none, true, [⟨5, true, some "5/0"⟩]⟩ rfl

/-- C10, code bug: the claim says every candidate-record read in the
selection phase is at an index the probing phase initialized (0 through
P−1), so the uninitialized-read error branch of a total embedding is
unreachable.  It is reachable: the selection loop runs
`for (i = 0; i <= numelm; i++)` (repmgrd.c:534), reading `nodes[numelm]`,
which the probing loop never wrote.  With P = 1 reachable peer, the probing
phase initializes exactly cell 0, and the selection loop's read at index 1
hits the uninitialized entry. -/
theorem selection_loop_reads_uninitialized :
    probeLoop [⟨3, true, some "5/0"⟩] 0 ⟨none, none⟩ [] 1 =
      .ok ([⟨some true, some 3, some 5, some 0⟩], 2, ⟨some 5, some 0⟩) ∧
    selectBest [⟨some true, some 3, some 5, some 0⟩] 1 ⟨-1, 9, 0⟩ =
      .error (.uninitCellRead 1) := by
  refine ⟨rfl, rfl⟩

/-! ## Claims about the monitoring tick -/

/-- The `%lld` reinterpretation of an `unsigned long long` difference equals
the true integer difference whenever that difference lies in
`[-2^63, 2^63)`. -/
theorem toS64_u64sub (a b : Nat)
    (hlo : -(9223372036854775808 : Int) ≤ (a : Int) - (b : Int))
    (hhi : (a : Int) - (b : Int) < 9223372036854775808) :
    toS64 (u64sub a b) = (a : Int) - (b : Int) := by
  unfold toS64 u64sub
  split <;> omega

/-- `walLocationToBytes` always fits in an `unsigned long long`. -/
theorem walLocationToBytes_lt (s : String) :
    walLocationToBytes s < 18446744073709551616 := by
  unfold walLocationToBytes
  split
  · exact Nat.mod_lt _ (by norm_num)
  · norm_num

/-- C4 counterexample: the claim "each recorded sample carries
`bytes_behind_receive` equal to `byte(primary_lsn) - byte(receive_lsn)`, and
a negative difference is recorded with that (negative) value" is false as
stated.  With primary at `"0/0"` and the standby's receive location at
`"FFFFFFFF/0"`, the true difference is negative but its unsigned 64-bit wrap
reinterpreted through `%lld` is the positive value 72057598316118016, which
is what the INSERT records. -/
theorem monitor_lag_claim_counterexample :
    MonitorExecute 1 2 ⟨true, some ("t0", "FFFFFFFF/0", "FFFFFFFF/0"), some "0/0"⟩ =
      .send ⟨1, 2, "t0", "0/0", "FFFFFFFF/0", 72057598316118016, 0⟩ ∧
    (walLocationToBytes "0/0" : Int) - (walLocationToBytes "FFFFFFFF/0" : Int) < 0 ∧
    (72057598316118016 : Int) ≠
      (walLocationToBytes "0/0" : Int) - (walLocationToBytes "FFFFFFFF/0" : Int) := by
  refine ⟨by decide, by decide, by decide⟩

/-- C4, amended: each recorded sample carries the signed-64-bit (`%lld`)
reinterpretation of the wrapped `unsigned long long` differences
`byte(primary_lsn) - byte(receive_lsn)` and
`byte(receive_lsn) - byte(apply_lsn)`; whenever the true difference lies in
`[-2^63, 2^63)` — in particular for every negative difference of magnitude
below 2^63 — the recorded value equals the true (possibly negative)
difference, and the sample is recorded unconditionally, neither clamped nor
dropped. -/
theorem monitor_lag_amended (primaryNode standbyNode : Int) (inp : TickInput)
    (ts recv appl prim : String)
    (h1 : inp.still_standby = true)
    (h2 : inp.localSample = some (ts, recv, appl))
    (h3 : inp.primarySample = some prim)
    (hrlo : -(9223372036854775808 : Int) ≤
      (walLocationToBytes prim : Int) - (walLocationToBytes recv : Int))
    (hrhi : (walLocationToBytes prim : Int) - (walLocationToBytes recv : Int) <
      9223372036854775808)
    (halo : -(9223372036854775808 : Int) ≤
      (walLocationToBytes recv : Int) - (walLocationToBytes appl : Int))
    (hahi : (walLocationToBytes recv : Int) - (walLocationToBytes appl : Int) <
      9223372036854775808) :
    MonitorExecute primaryNode standbyNode inp = .send
      { primaryNode := primaryNode
        standbyNode := standbyNode
        timestamp := ts
        primaryLsnText := prim
        receivedLsnText := recv
        bytes_behind_receive :=
          (walLocationToBytes prim : Int) - (walLocationToBytes recv : Int)
        bytes_behind_apply :=
          (walLocationToBytes recv : Int) - (walLocationToBytes appl : Int) } := by
  unfold MonitorExecute
  rw [h1, h2, h3]
  simp only [Bool.not_true, Bool.false_eq_true, if_false]
  rw [toS64_u64sub _ _ hrlo hrhi, toS64_u64sub _ _ halo hahi]

/-- C4 witness: primary behind the standby by one segment — the negative
difference `-4278190080` is recorded as such, and the sample is sent. -/
theorem monitor_lag_amended_witness :
    MonitorExecute 1 2 ⟨true, some ("t0", "2/0", "2/0"), some "1/0"⟩ =
      .send ⟨1, 2, "t0", "1/0", "2/0",
        (walLocationToBytes "1/0" : Int) - (walLocationToBytes "2/0" : Int),
        (walLocationToBytes "2/0" : Int) - (walLocationToBytes "2/0" : Int)⟩ :=
  monitor_lag_amended 1 2 ⟨true, some ("t0", "2/0", "2/0"), some "1/0"⟩
    "t0" "2/0" "2/0" "1/0" rfl rfl rfl (by decide) (by decide) (by decide) (by decide)

/-- Each tick keeps the outstanding-insert count at or below one at every
micro-step, and hands the next tick a count at or below one. -/
theorem pipeTick_bounded (s : Nat) (inp : PipeTickInput) (hs : s ≤ 1) :
    (∀ x ∈ pipeTick s inp, x ≤ 1) ∧ pipeEnd s inp ≤ 1 := by
  obtain ⟨c, l, p, k⟩ := inp
  interval_cases s <;> cases c <;> cases l <;> cases p <;> cases k <;>
    exact ⟨by decide, by decide⟩

/-- C8, confirmed: at every point of every run of the monitoring loop, at
most one asynchronous monitor INSERT is outstanding against the primary:
each tick cancels the previous tick's still-in-flight insert (if any) before
its own `PQsendQuery` (repmgrd.c:336-337 before 396), so the count after
every primitive step of the first `n` ticks is at most one, for every
tick-input stream. -/
theorem pipeline_depth_at_most_one (inputs : Nat → PipeTickInput) (n : Nat) :
    (∀ x ∈ pipeTrace inputs n, x ≤ 1) ∧ pipeRun inputs n ≤ 1 := by
  induction n with
  | zero => simp [pipeTrace, pipeRun]
  | succ m ih =>
    constructor
    · intro x hx
      unfold pipeTrace at hx
      rcases List.mem_append.mp hx with h | h
      · exact ih.1 x h
      · exact (pipeTick_bounded _ _ ih.2).1 x h
    · exact (pipeTick_bounded _ _ ih.2).2

/-- C8 witness: a concrete three-tick run in which every insert is still in
flight at the next tick and every send succeeds. -/
theorem pipeline_depth_at_most_one_witness :
    (∀ x ∈ pipeTrace (fun _ => ⟨false, true, true, true⟩) 3, x ≤ 1) ∧
    pipeRun (fun _ => ⟨false, true, true, true⟩) 3 ≤ 1 :=
  pipeline_depth_at_most_one (fun _ => ⟨false, true, true, true⟩) 3

/-! ## Claims about self-registration -/

/-- C9 counterexample: the claim "for any starting node-table state, running
the self-registration check twice leaves exactly one row for the local node"
is false as stated: from a starting table that already holds two rows for
`(1, "c")`, both runs insert nothing and two rows remain. -/
theorem self_registration_claim_counterexample :
    (((checkNodeConfiguration
        (checkNodeConfiguration [⟨1, "c", "a"⟩, ⟨1, "c", "b"⟩] 1 "c" "x").1
        1 "c" "x").1.filter (nodeRowMatches 1 "c")).length ≠ 1) := by decide

/-- C9, amended: for any starting node-table state holding at most one row
for `(node_id, cluster_name)` — which the data model's uniqueness invariant
guarantees — running the self-registration check twice leaves exactly one
row for the local node; the insert is performed only when no row exists, and
the second run performs no insert. -/
theorem self_registration_amended (table : List NodeRow) (n : Int) (cl ci : String)
    (h : (table.filter (nodeRowMatches n cl)).length ≤ 1) :
    (((checkNodeConfiguration (checkNodeConfiguration table n cl ci).1 n cl ci).1.filter
        (nodeRowMatches n cl)).length = 1) ∧
    (checkNodeConfiguration (checkNodeConfiguration table n cl ci).1 n cl ci).2 = false := by
  have hrow : nodeRowMatches n cl ⟨n, cl, ci⟩ = true := by
    simp [nodeRowMatches]
  by_cases h0 : (table.filter (nodeRowMatches n cl)).length = 0
  · have hfirst : checkNodeConfiguration table n cl ci = (table ++ [⟨n, cl, ci⟩], true) := by
      simp [checkNodeConfiguration, h0]
    rw [hfirst]
    have hlen : ((table ++ [(⟨n, cl, ci⟩ : NodeRow)]).filter (nodeRowMatches n cl)).length = 1 := by
      rw [List.filter_append, List.length_append, h0]
      simp [List.filter_cons, hrow]
    have hsecond : checkNodeConfiguration (table ++ [(⟨n, cl, ci⟩ : NodeRow)]) n cl ci =
        (table ++ [(⟨n, cl, ci⟩ : NodeRow)], false) := by
      unfold checkNodeConfiguration
      simp only [hlen]
      norm_num
    rw [hsecond]
    exact ⟨hlen, rfl⟩
  · have h1 : (table.filter (nodeRowMatches n cl)).length = 1 := by omega
    have hfirst : checkNodeConfiguration table n cl ci = (table, false) := by
      simp [checkNodeConfiguration, h0]
    rw [hfirst]
    rw [hfirst]
    exact ⟨h1, rfl⟩

/-- C9 witness: starting from the empty table, two runs leave exactly one
row and the second run does not insert. -/
theorem self_registration_amended_witness :
    ((((checkNodeConfiguration (checkNodeConfiguration [] 1 "c" "x").1 1 "c" "x").1.filter
        (nodeRowMatches 1 "c")).length = 1) ∧
      (checkNodeConfiguration (checkNodeConfiguration [] 1 "c" "x").1 1 "c" "x").2 = false) :=
  self_registration_amended [] 1 "c" "x" (by decide)

end Repmgrd
